import Mathlib

/-!
Verification of the Starlink Trainspotter visibility prediction engine.

The development shallowly embeds the engine's code: `src/lib/spacex-api.ts`
(TLE validation and freshness), the satellite tracker (pass finder, scoring,
illumination model), and `src/lib/prediction-engine.ts` (caching
orchestration and quality assessment).

Modelling conventions:
- JavaScript numbers are modelled as `ℚ` where the code does exact-looking
  arithmetic (elevations, azimuths, scores, ratios) and as `ℝ` where the
  code uses transcendental functions (the illumination geometry).
- `Date` timestamps are modelled as `ℤ` milliseconds since the epoch.
- JavaScript `Date`-string parsing is modelled by an oracle
  `parse : String → Option ℤ` (`none` models an invalid date, whose `NaN`
  timestamp makes every comparison in the source evaluate to `false`).
- External I/O (the SpaceX API, booster lookups, satellite propagation via
  satellite.js) is modelled by oracle function parameters, so each engine
  function is a pure function of its inputs and those oracles.
-/

/-- One satellite record as consumed by the engine (`StarlinkSat` in
`src/lib/types.ts`). -/
structure StarlinkSat where
  id : String
  launch : String
  tle1 : String
  tle2 : String
  epoch : String
deriving DecidableEq

/-- Booster metadata (`BoosterInfo` in `src/lib/types.ts`). -/
structure BoosterInfo where
  coreId : String
  flightNumber : ℤ
  landingType : String
  landingPad : Option String
deriving DecidableEq

/-- A launch record (`LaunchLite` in `src/lib/types.ts`).  The `date_utc`
ISO string is modelled by its parsed epoch-millisecond timestamp; `cores`
keeps each entry's possibly-null core id. -/
structure LaunchLite where
  id : String
  name : String
  date_utc : ℤ
  cores : List (Option String)
  launchpad : String
deriving DecidableEq

/-- Observer location (`UserLocation` in `src/lib/types.ts`). -/
structure UserLocation where
  lat : ℚ
  lon : ℚ
  name : Option String
  timezone : Option String
deriving DecidableEq

/-- Scoring weights (`PredictionWeights` in `src/lib/types.ts`). -/
structure PredictionWeights where
  w1 : ℚ
  w2 : ℚ
  w3 : ℚ
  w4 : ℚ
deriving DecidableEq

/-- A visible pass (`Pass` in `src/lib/types.ts`).  The source field `end`
is a Lean keyword and is rendered `endTime`. -/
structure Pass where
  satId : String
  launchId : String
  start : ℤ
  peak : ℤ
  endTime : ℤ
  maxElDeg : ℚ
  phaseAngleDeg : ℚ
  score : ℚ
  azStart : ℚ
  azEnd : ℚ
  launchName : String
  boosterInfo : Option BoosterInfo
deriving DecidableEq

/-! Constants from `src/lib/constants.ts`. -/

def PREDICTION_DAYS : ℕ := 7

def PREDICTION_STEP_SECONDS : ℕ := 30

def MIN_ELEVATION_DEG : ℤ := 10

def CIVIL_TWILIGHT_ANGLE : ℤ := -6

def MAX_TLE_AGE_HOURS : ℕ := 48

/-- Default scoring weights (`DEFAULT_WEIGHTS` in `src/lib/constants.ts`). -/
def DEFAULT_WEIGHTS : PredictionWeights :=
  { w1 := 0.45, w2 := 0.3, w3 := 0.2, w4 := 0.05 }

/-! TLE validation and freshness, from `src/lib/spacex-api.ts`. -/

/-- `isTleFresh` from `src/lib/spacex-api.ts`.  An empty epoch string is
rejected up front; an unparseable epoch yields a `NaN` timestamp in the
source, making the `<= 48` comparison false, which the `none` branch
models. -/
def isTleFresh (parse : String → Option ℤ) (now : ℤ) (epoch : String) : Bool :=
  if epoch = "" then false
  else
    match parse epoch with
    | none => false
    | some epochDate =>
      decide ((((now - epochDate : ℤ) : ℚ) / (1000 * 60 * 60)) ≤ 48)

/-- `isValidTle` from `src/lib/spacex-api.ts`.  The source first rejects
falsy (empty) strings, then checks exact length 69 and the line markers. -/
def isValidTle (tle1 tle2 : String) : Bool :=
  if tle1 = "" ∨ tle2 = "" then false
  else
    tle1.length == 69 && tle2.length == 69 &&
      tle1.startsWith "1 " && tle2.startsWith "2 "

/-- C9: `isValidTle(line1, line2)` returns true iff both lines are exactly
69 characters long, line 1 begins with "1 " and line 2 begins with "2 ";
any length deviation or wrong prefix makes it return false. -/
theorem isValidTle_iff (tle1 tle2 : String) :
    isValidTle tle1 tle2 = true ↔
      (tle1.length = 69 ∧ tle2.length = 69 ∧
        tle1.startsWith "1 " = true ∧ tle2.startsWith "2 " = true) := by
  unfold isValidTle
  split_ifs with h
  · simp only [Bool.false_eq_true, false_iff]
    rintro ⟨h1, h2, -, -⟩
    rcases h with h | h
    · rw [h] at h1
      simp at h1
    · rw [h] at h2
      simp at h2
  · simp [Bool.and_eq_true, beq_iff_eq, and_assoc]

/-- C8: for an epoch string that parses, `isTleFresh` returns true iff
`now - epoch` is at most 48 hours, the boundary being inclusive; an empty
or unparseable epoch string yields false rather than an error. -/
theorem isTleFresh_spec (parse : String → Option ℤ) (now : ℤ) :
    (∀ epoch epochDate, epoch ≠ "" → parse epoch = some epochDate →
        (isTleFresh parse now epoch = true ↔
          now - epochDate ≤ 48 * (1000 * 60 * 60))) ∧
    isTleFresh parse now "" = false ∧
    (∀ epoch, parse epoch = none → isTleFresh parse now epoch = false) := by
  refine ⟨?_, ?_, ?_⟩
  · intro epoch epochDate hne hparse
    unfold isTleFresh
    rw [if_neg hne, hparse, decide_eq_true_iff]
    rw [div_le_iff₀ (by norm_num)]
    constructor
    · intro h
      exact_mod_cast h
    · intro h
      exact_mod_cast h
  · rfl
  · intro epoch hparse
    unfold isTleFresh
    split_ifs with h
    · rfl
    · rw [hparse]

/-- Witness for C8 at concrete inputs, exercising the inclusive 48-hour
boundary, the empty string, and an unparseable string. -/
theorem isTleFresh_spec_witness :
    isTleFresh (fun s => if s = "E" then some 0 else none) 172800000 "E" = true ∧
    isTleFresh (fun s => if s = "E" then some 0 else none) 172800000 "" = false ∧
    isTleFresh (fun s => if s = "E" then some 0 else none) 172800000 "X" = false := by
  refine ⟨?_, ?_, ?_⟩
  · exact ((isTleFresh_spec (fun s => if s = "E" then some 0 else none)
      172800000).1 "E" 0 (by decide) (by decide)).mpr (by norm_num)
  · exact (isTleFresh_spec (fun s => if s = "E" then some 0 else none)
      172800000).2.1
  · exact (isTleFresh_spec (fun s => if s = "E" then some 0 else none)
      172800000).2.2 "X" (by decide)

/-! Illumination model, from the satellite tracker
(`src/unnamed/part_004`).  These functions use real trigonometry, so they
are modelled over `ℝ`. -/

/-- An Earth-centered-inertial position vector (satellite.js `EciVec3`). -/
structure Vec3 where
  x : ℝ
  y : ℝ
  z : ℝ

/-- Observer geodetic position (satellite.js `GeodeticLocation`), field
order as constructed in `calculateSatellitePasses`. -/
structure GeodeticLocation where
  longitude : ℝ
  latitude : ℝ
  height : ℝ

/-- A JS `Date` as observed by the illumination model: the source reads
only `getDayOfYear(time)` and `getUTCHours()` and `getUTCMinutes()`. -/
structure Instant where
  dayOfYear : ℤ
  utcHours : ℤ
  utcMinutes : ℤ

/-- satellite.js `radiansToDegrees`. -/
noncomputable def radiansToDegrees (r : ℝ) : ℝ := r * 180 / Real.pi

/-- The dot product of two position vectors, as computed coordinatewise in
`isSatelliteInSunlight`. -/
def dot3 (a b : Vec3) : ℝ := a.x * b.x + a.y * b.y + a.z * b.z

/-- `calculateSunPositionEci` from the satellite tracker: an approximate
sun position from the day of year. -/
noncomputable def calculateSunPositionEci (time : Instant) : Vec3 :=
  let dayOfYear : ℝ := (time.dayOfYear : ℝ)
  let solarLongitude := (dayOfYear - 81) * (360 / 365.25) * (Real.pi / 180)
  let distance : ℝ := 149597870.7
  { x := distance * Real.cos solarLongitude
    y := distance * Real.sin solarLongitude
    z := 0 }

/-- The normalized sun direction vector computed inside
`isSatelliteInSunlight` (`sunUnit` in the source). -/
noncomputable def sunUnitVec (time : Instant) : Vec3 :=
  let sunEci := calculateSunPositionEci time
  let sunMagnitude := Real.sqrt (sunEci.x ^ 2 + sunEci.y ^ 2 + sunEci.z ^ 2)
  { x := sunEci.x / sunMagnitude
    y := sunEci.y / sunMagnitude
    z := sunEci.z / sunMagnitude }

/-- `isSatelliteInSunlight` from the satellite tracker: the satellite is
sunlit when the cosine of the angle between its position vector and the
sun direction is positive. -/
noncomputable def isSatelliteInSunlight (satelliteEci : Vec3) (time : Instant) : Prop :=
  let sunUnit := sunUnitVec time
  let dotProduct := dot3 satelliteEci sunUnit
  let satMagnitude :=
    Real.sqrt (satelliteEci.x ^ 2 + satelliteEci.y ^ 2 + satelliteEci.z ^ 2)
  let cosAngle := dotProduct / satMagnitude
  cosAngle > 0

/-- `calculateSunElevation` from the satellite tracker: approximate solar
elevation for the observer from solar declination and hour angle. -/
noncomputable def calculateSunElevation (observerGd : GeodeticLocation)
    (time : Instant) : ℝ :=
  let hour : ℝ := (time.utcHours : ℝ) + (time.utcMinutes : ℝ) / 60
  let dayOfYear : ℝ := (time.dayOfYear : ℝ)
  let declination :=
    23.45 * Real.sin (360 * (284 + dayOfYear) / 365 * Real.pi / 180)
  let hourAngle := 15 * (hour - 12)
  let lat := radiansToDegrees observerGd.latitude
  Real.arcsin
      (Real.sin (declination * Real.pi / 180) * Real.sin (lat * Real.pi / 180) +
        Real.cos (declination * Real.pi / 180) * Real.cos (lat * Real.pi / 180) *
          Real.cos (hourAngle * Real.pi / 180)) *
    180 / Real.pi

open Classical in
/-- `isSatelliteVisible` from the satellite tracker: the elevation gate is
evaluated first, then the satellite-sunlit gate, then the observer-darkness
gate. -/
noncomputable def isSatelliteVisible (satelliteEci : Vec3)
    (observerGd : GeodeticLocation) (time : Instant) (elevation : ℝ) : Bool :=
  if elevation ≤ ((MIN_ELEVATION_DEG : ℤ) : ℝ) then false
  else if ¬ isSatelliteInSunlight satelliteEci time then false
  else decide (calculateSunElevation observerGd time ≤ ((CIVIL_TWILIGHT_ANGLE : ℤ) : ℝ))

/-- A quotient `dot / sqrt (x² + y² + z²)` is positive exactly when the
dot product is: the denominator is nonnegative, and when it vanishes the
vector, hence the dot product, is zero. -/
theorem dot_div_norm_pos_iff (s u : Vec3) :
    0 < dot3 s u / Real.sqrt (s.x ^ 2 + s.y ^ 2 + s.z ^ 2) ↔ 0 < dot3 s u := by
  constructor
  · intro h
    rcases div_pos_iff.mp h with ⟨ha, _⟩ | ⟨_, hb⟩
    · exact ha
    · exact absurd hb (not_lt.mpr (Real.sqrt_nonneg _))
  · intro h
    have hb : 0 < Real.sqrt (s.x ^ 2 + s.y ^ 2 + s.z ^ 2) := by
      rcases lt_or_eq_of_le (Real.sqrt_nonneg (s.x ^ 2 + s.y ^ 2 + s.z ^ 2)) with
        hlt | heq
      · exact hlt
      · exfalso
        have h0 : s.x ^ 2 + s.y ^ 2 + s.z ^ 2 ≤ 0 := Real.sqrt_eq_zero'.mp heq.symm
        have hx : s.x = 0 := by nlinarith [sq_nonneg s.x, sq_nonneg s.y, sq_nonneg s.z]
        have hy : s.y = 0 := by nlinarith [sq_nonneg s.x, sq_nonneg s.y, sq_nonneg s.z]
        have hz : s.z = 0 := by nlinarith [sq_nonneg s.x, sq_nonneg s.y, sq_nonneg s.z]
        rw [dot3, hx, hy, hz] at h
        simp at h
    exact div_pos h hb

/-- The sunlit test holds exactly when the satellite position has a
positive component along the approximated sun direction. -/
theorem isSatelliteInSunlight_iff (s : Vec3) (t : Instant) :
    isSatelliteInSunlight s t ↔ 0 < dot3 s (sunUnitVec t) := by
  unfold isSatelliteInSunlight
  exact dot_div_norm_pos_iff s (sunUnitVec t)

/-- C1: `isSatelliteVisible` returns true iff the elevation exceeds the
10-degree minimum, the satellite position has a positive component along
the approximated sun direction, and the observer's approximate sun
elevation is at most the -6-degree civil-twilight threshold; in
particular, any elevation at or below 10 degrees yields false regardless
of illumination, because the elevation gate is evaluated first. -/
theorem isSatelliteVisible_iff (s : Vec3) (g : GeodeticLocation) (t : Instant)
    (elevation : ℝ) :
    (isSatelliteVisible s g t elevation = true ↔
      (((MIN_ELEVATION_DEG : ℤ) : ℝ) < elevation ∧
        0 < dot3 s (sunUnitVec t) ∧
        calculateSunElevation g t ≤ ((CIVIL_TWILIGHT_ANGLE : ℤ) : ℝ))) ∧
    (elevation ≤ ((MIN_ELEVATION_DEG : ℤ) : ℝ) →
      isSatelliteVisible s g t elevation = false) := by
  constructor
  · unfold isSatelliteVisible
    by_cases h1 : elevation ≤ ((MIN_ELEVATION_DEG : ℤ) : ℝ)
    · rw [if_pos h1]
      simp only [Bool.false_eq_true, false_iff]
      rintro ⟨hlt, -, -⟩
      exact absurd h1 (not_le.mpr hlt)
    · rw [if_neg h1]
      by_cases h2 : isSatelliteInSunlight s t
      · rw [if_neg (not_not_intro h2), decide_eq_true_iff]
        constructor
        · intro h
          exact ⟨not_le.mp h1, (isSatelliteInSunlight_iff s t).mp h2, h⟩
        · intro h
          exact h.2.2
      · rw [if_pos h2]
        simp only [Bool.false_eq_true, false_iff]
        rintro ⟨-, hdot, -⟩
        exact h2 ((isSatelliteInSunlight_iff s t).mpr hdot)
  · intro h
    unfold isSatelliteVisible
    rw [if_pos h]

/-- Witness for C1: at elevation 5 degrees the visibility predicate is
false. -/
theorem isSatelliteVisible_iff_witness :
    isSatelliteVisible { x := 1, y := 0, z := 0 }
      { longitude := 0, latitude := 0, height := 0.1 }
      { dayOfYear := 80, utcHours := 6, utcMinutes := 0 } 5 = false :=
  (isSatelliteVisible_iff { x := 1, y := 0, z := 0 }
      { longitude := 0, latitude := 0, height := 0.1 }
      { dayOfYear := 80, utcHours := 6, utcMinutes := 0 } 5).2
    (by norm_num [MIN_ELEVATION_DEG])

/-! Pass finder, from the satellite tracker (`src/unnamed/part_004`).  The
per-instant outcome of satellite.js propagation, look-angle conversion and
the visibility predicate is modelled by an oracle
`obs : ℤ → Option StepData`: `none` models a step where `propagate`
returned no usable position, and `StepData.visible` models the awaited
`isSatelliteVisible` result at that step. -/

/-- One buffered sample of a pass in progress (the
`{time, elevation, azimuth, range}` objects pushed onto `passPoints`). -/
structure SamplePoint where
  time : ℤ
  elevation : ℚ
  azimuth : ℚ
  range : ℚ
deriving DecidableEq

/-- What one time step of the scan loop observes when propagation yields a
position: the look angles in degrees plus the visibility verdict. -/
structure StepData where
  elevation : ℚ
  azimuth : ℚ
  range : ℚ
  visible : Bool
deriving DecidableEq

/-- The scan loop's mutable state (`passes`, `inPass`, `passStart`,
`passPoints` in `calculateSatellitePasses`). -/
structure ScanState where
  passes : List Pass
  inPass : Bool
  passStart : Option ℤ
  passPoints : List SamplePoint
deriving DecidableEq

/-- `createPassFromPoints` from the satellite tracker.  The source's
`Math.random() * 60 + 30` phase-angle placeholder is modelled by the
oracle value `rand`. -/
def createPassFromPoints (sat : StarlinkSat) (launch : LaunchLite)
    (passStart : ℤ) (points : List SamplePoint) (boosterInfo : Option BoosterInfo)
    (rand : ℚ) : Option Pass :=
  if points.length < 2 then none
  else
    match points with
    | [] => none
    | firstPoint :: rest =>
      let peakPoint := rest.foldl
        (fun mx point => if point.elevation > mx.elevation then point else mx)
        firstPoint
      let lastPoint := (firstPoint :: rest).getLast (List.cons_ne_nil _ _)
      let phaseAngle := rand * 60 + 30
      some
        { satId := sat.id
          launchId := sat.launch
          start := passStart
          peak := peakPoint.time
          endTime := lastPoint.time
          maxElDeg := peakPoint.elevation
          phaseAngleDeg := phaseAngle
          score := 0
          azStart := firstPoint.azimuth
          azEnd := lastPoint.azimuth
          launchName := launch.name
          boosterInfo := boosterInfo }

/-- Closing a pass: the `passStart && passPoints.length > 0` guarded call
of `createPassFromPoints`, appending the result to `passes` when it is
non-null.  This block appears twice in `calculateSatellitePasses` (at the
end of a pass and at the horizon); the per-pass random value is drawn from
the oracle `rand` at the pass start time. -/
def closePass (sat : StarlinkSat) (launch : LaunchLite)
    (boosterInfo : Option BoosterInfo) (rand : ℤ → ℚ) (st : ScanState) :
    List Pass :=
  match st.passStart with
  | some passStart =>
    if st.passPoints.length > 0 then
      match createPassFromPoints sat launch passStart st.passPoints boosterInfo
          (rand passStart) with
      | some pass => st.passes ++ [pass]
      | none => st.passes
    else st.passes
  | none => st.passes

/-- One iteration of the `while (currentTime <= endTime)` loop in
`calculateSatellitePasses` at time `t`.  When propagation yields no
position (`obs = none`) the whole visibility block is skipped and the
state is unchanged; otherwise the sample is buffered while
`isVisible && elevation > MIN_ELEVATION_DEG` holds, and the pass is closed
on the first step where it fails. -/
def scanStep (sat : StarlinkSat) (launch : LaunchLite)
    (boosterInfo : Option BoosterInfo) (rand : ℤ → ℚ) (st : ScanState)
    (t : ℤ) (o : Option StepData) : ScanState :=
  match o with
  | none => st
  | some d =>
    if d.visible = true ∧ ((MIN_ELEVATION_DEG : ℤ) : ℚ) < d.elevation then
      if st.inPass then
        { st with passPoints :=
            st.passPoints ++ [{ time := t, elevation := d.elevation,
                                azimuth := d.azimuth, range := d.range }] }
      else
        { st with
            inPass := true
            passStart := some t
            passPoints := [{ time := t, elevation := d.elevation,
                             azimuth := d.azimuth, range := d.range }] }
    else
      if st.inPass then
        { passes := closePass sat launch boosterInfo rand st
          inPass := false
          passStart := none
          passPoints := [] }
      else st

/-- The initial scan state of `calculateSatellitePasses`. -/
def startScanState : ScanState :=
  { passes := [], inPass := false, passStart := none, passPoints := [] }

/-- The terminal `if (inPass && passStart && passPoints.length > 0)` block
of `calculateSatellitePasses`: a pass still in progress when the horizon
is reached is closed from whatever points were buffered. -/
def finishScan (sat : StarlinkSat) (launch : LaunchLite)
    (boosterInfo : Option BoosterInfo) (rand : ℤ → ℚ) (finalState : ScanState) :
    List Pass :=
  if finalState.inPass then closePass sat launch boosterInfo rand finalState
  else finalState.passes

/-- The scan loop of `calculateSatellitePasses` over an explicit list of
step times, followed by the terminal close of a pass still in progress at
the horizon. -/
def scanPasses (sat : StarlinkSat) (launch : LaunchLite)
    (boosterInfo : Option BoosterInfo) (rand : ℤ → ℚ) (times : List ℤ)
    (obs : ℤ → Option StepData) : List Pass :=
  finishScan sat launch boosterInfo rand
    (times.foldl
      (fun st t => scanStep sat launch boosterInfo rand st t (obs t)) startScanState)

/-- The step times of the scan loop: from `now` to `now + 7 days` in
30-second steps, both endpoints included (`currentTime <= endTime`). -/
def scanTimes (now : ℤ) : List ℤ :=
  (List.range
      (PREDICTION_DAYS * 24 * 60 * 60 * 1000 / (PREDICTION_STEP_SECONDS * 1000) + 1)).map
    (fun k : ℕ => now + (k : ℤ) * ((PREDICTION_STEP_SECONDS : ℤ) * 1000))

/-- `calculateSatellitePasses` from the satellite tracker: scan the fixed
7-day horizon for one satellite. -/
def calculateSatellitePasses (sat : StarlinkSat) (launch : LaunchLite)
    (boosterInfo : Option BoosterInfo) (rand : ℤ → ℚ) (now : ℤ)
    (obs : ℤ → Option StepData) : List Pass :=
  scanPasses sat launch boosterInfo rand (scanTimes now) obs

/-- The well-formedness property C2 asserts of every emitted pass: the
timestamps are ordered, and the pass was built by `createPassFromPoints`
from a buffer of at least two samples whose maximum elevation, first
azimuth and last azimuth it records. -/
def PassWellFormed (sat : StarlinkSat) (launch : LaunchLite)
    (boosterInfo : Option BoosterInfo) (rand : ℤ → ℚ) (p : Pass) : Prop :=
  p.start ≤ p.peak ∧ p.peak ≤ p.endTime ∧
  ∃ points : List SamplePoint,
    2 ≤ points.length ∧
    createPassFromPoints sat launch p.start points boosterInfo (rand p.start) =
      some p ∧
    p.maxElDeg ∈ points.map SamplePoint.elevation ∧
    (∀ q ∈ points, q.elevation ≤ p.maxElDeg) ∧
    ∃ hne : points ≠ [],
      p.azStart = (points.head hne).azimuth ∧
      p.azEnd = (points.getLast hne).azimuth

/-- The `reduce` in `createPassFromPoints` returns one of the candidate
points. -/
theorem peakFold_mem :
    ∀ (rest : List SamplePoint) (p : SamplePoint),
      rest.foldl
          (fun mx point => if point.elevation > mx.elevation then point else mx) p ∈
        p :: rest := by
  intro rest
  induction rest with
  | nil => intro p; simp
  | cons a l ih =>
    intro p
    simp only [List.foldl_cons]
    have h := ih (if a.elevation > p.elevation then a else p)
    rcases List.mem_cons.mp h with h1 | h1
    · by_cases hc : a.elevation > p.elevation
      · rw [h1, if_pos hc]
        exact List.mem_cons_of_mem _ (List.mem_cons_self _ _)
      · rw [h1, if_neg hc]
        exact List.mem_cons_self _ _
    · exact List.mem_cons_of_mem _ (List.mem_cons_of_mem _ h1)

/-- The `reduce` in `createPassFromPoints` dominates the elevation of
every candidate point. -/
theorem peakFold_ub :
    ∀ (rest : List SamplePoint) (p q : SamplePoint), q ∈ p :: rest →
      q.elevation ≤
        (rest.foldl
          (fun mx point => if point.elevation > mx.elevation then point else mx)
          p).elevation := by
  intro rest
  induction rest with
  | nil =>
    intro p q hq
    have : q = p := by simpa using hq
    rw [this]
    exact le_refl _
  | cons a l ih =>
    intro p q hq
    simp only [List.foldl_cons]
    have hp : p.elevation ≤ (if a.elevation > p.elevation then a else p).elevation := by
      by_cases hc : a.elevation > p.elevation
      · rw [if_pos hc]; exact le_of_lt hc
      · rw [if_neg hc]
    have ha : a.elevation ≤ (if a.elevation > p.elevation then a else p).elevation := by
      by_cases hc : a.elevation > p.elevation
      · rw [if_pos hc]
      · rw [if_neg hc]; exact le_of_not_lt hc
    have hself := ih (if a.elevation > p.elevation then a else p)
      (if a.elevation > p.elevation then a else p) (List.mem_cons_self _ _)
    rcases List.mem_cons.mp hq with h1 | h1
    · rw [h1]
      exact le_trans hp hself
    · rcases List.mem_cons.mp h1 with h2 | h2
      · rw [h2]
        exact le_trans ha hself
      · exact ih _ q (List.mem_cons_of_mem _ h2)

/-- What a successful `createPassFromPoints` guarantees about the pass it
builds, in terms of the buffered points. -/
theorem createPassFromPoints_some {sat : StarlinkSat} {launch : LaunchLite}
    {passStart : ℤ} {points : List SamplePoint} {boosterInfo : Option BoosterInfo}
    {rand : ℚ} {p : Pass}
    (h : createPassFromPoints sat launch passStart points boosterInfo rand = some p) :
    2 ≤ points.length ∧ p.start = passStart ∧
    (∃ peakPoint ∈ points,
        p.peak = peakPoint.time ∧ p.maxElDeg = peakPoint.elevation ∧
        ∀ q ∈ points, q.elevation ≤ peakPoint.elevation) ∧
    ∃ hne : points ≠ [],
      p.endTime = (points.getLast hne).time ∧
      p.azStart = (points.head hne).azimuth ∧
      p.azEnd = (points.getLast hne).azimuth := by
  unfold createPassFromPoints at h
  split_ifs at h with hlen
  rcases points with _ | ⟨a, rest⟩
  · simp at h
  · rw [Option.some.injEq] at h
    subst h
    refine ⟨Nat.not_lt.mp hlen, rfl, ?_, ?_⟩
    · exact ⟨_, peakFold_mem rest a, rfl, rfl, fun q hq => peakFold_ub rest a q hq⟩
    · exact ⟨List.cons_ne_nil _ _, rfl, rfl, rfl⟩

/-- Appending to a nonempty list does not change its head. -/
theorem head_append_single (l : List SamplePoint) (x : SamplePoint) (h : l ≠ [])
    (h2 : l ++ [x] ≠ []) : (l ++ [x]).head h2 = l.head h := by
  rcases l with _ | ⟨a, m⟩
  · exact absurd rfl h
  · rfl

/-- In a time-sorted sample buffer, the head's time bounds every sample's
time from below. -/
theorem pairwise_head_le {points : List SamplePoint}
    (hp : List.Pairwise (fun a b => a.time < b.time) points) (hne : points ≠ []) :
    ∀ q ∈ points, (points.head hne).time ≤ q.time := by
  rcases points with _ | ⟨a, l⟩
  · exact absurd rfl hne
  · intro q hq
    simp only [List.head_cons]
    rcases List.mem_cons.mp hq with h1 | h1
    · rw [h1]
    · exact le_of_lt ((List.pairwise_cons.mp hp).1 q h1)

/-- In a time-sorted sample buffer, the last sample's time bounds every
sample's time from above. -/
theorem pairwise_le_getLast :
    ∀ (points : List SamplePoint),
      List.Pairwise (fun a b => a.time < b.time) points →
      ∀ (hne : points ≠ []) (q : SamplePoint), q ∈ points →
        q.time ≤ (points.getLast hne).time := by
  intro points
  induction points with
  | nil => intro _ hne; exact absurd rfl hne
  | cons a l ih =>
    intro hp hne q hq
    rcases l with _ | ⟨b, m⟩
    · have hqa : q = a := by simpa using hq
      rw [hqa]
      exact le_refl _
    · have hlast : (a :: b :: m).getLast hne =
          (b :: m).getLast (List.cons_ne_nil _ _) := by
        rw [List.getLast_cons]
      rcases List.mem_cons.mp hq with h1 | h1
      · rw [h1, hlast]
        exact le_of_lt
          ((List.pairwise_cons.mp hp).1 _ (List.getLast_mem (List.cons_ne_nil _ _)))
      · rw [hlast]
        exact ih (List.pairwise_cons.mp hp).2 (List.cons_ne_nil _ _) q h1

/-- The invariant the scan loop maintains: already-emitted passes are
well-formed, the point buffer is time-sorted, and the buffer, `inPass`
flag and `passStart` are kept in sync exactly as the loop does. -/
def ScanInv (sat : StarlinkSat) (launch : LaunchLite)
    (boosterInfo : Option BoosterInfo) (rand : ℤ → ℚ) (st : ScanState) : Prop :=
  (∀ p ∈ st.passes, PassWellFormed sat launch boosterInfo rand p) ∧
  List.Pairwise (fun a b => a.time < b.time) st.passPoints ∧
  (st.inPass = false → st.passPoints = [] ∧ st.passStart = none) ∧
  (st.inPass = true → ∃ hne : st.passPoints ≠ [],
      st.passStart = some ((st.passPoints.head hne).time))

/-- Closing a pass from an invariant-satisfying in-pass state only emits
well-formed passes. -/
theorem closePass_wellFormed {sat : StarlinkSat} {launch : LaunchLite}
    {boosterInfo : Option BoosterInfo} {rand : ℤ → ℚ} {st : ScanState}
    (hinv : ScanInv sat launch boosterInfo rand st) (hip : st.inPass = true) :
    ∀ p ∈ closePass sat launch boosterInfo rand st,
      PassWellFormed sat launch boosterInfo rand p := by
  intro p hp
  unfold closePass at hp
  obtain ⟨hne, hstart⟩ := hinv.2.2.2 hip
  rw [hstart] at hp
  dsimp only at hp
  by_cases hlen : st.passPoints.length > 0
  · rw [if_pos hlen] at hp
    rcases hc : createPassFromPoints sat launch ((st.passPoints.head hne).time)
        st.passPoints boosterInfo (rand ((st.passPoints.head hne).time)) with _ | pass
    · rw [hc] at hp
      exact hinv.1 p hp
    · rw [hc] at hp
      dsimp only at hp
      rcases List.mem_append.mp hp with h1 | h1
      · exact hinv.1 p h1
      · have hpeq : p = pass := by simpa using h1
        subst hpeq
        obtain ⟨hlen2, hstart2, ⟨peakPoint, hpkmem, hpk, hmax, hub⟩,
          hne2, hend, hazs, haze⟩ := createPassFromPoints_some hc
        refine ⟨?_, ?_, st.passPoints, hlen2, ?_, ?_, ?_, hne2, hazs, haze⟩
        · rw [hstart2, hpk]
          exact pairwise_head_le hinv.2.1 hne peakPoint hpkmem
        · rw [hpk, hend]
          exact pairwise_le_getLast st.passPoints hinv.2.1 hne2 peakPoint hpkmem
        · rw [hstart2]
          exact hc
        · rw [hmax]
          exact List.mem_map_of_mem SamplePoint.elevation hpkmem
        · intro q hq
          rw [hmax]
          exact hub q hq
  · rw [if_neg hlen] at hp
    exact hinv.1 p hp

/-- One scan step preserves the invariant, and afterwards every buffered
sample's time is at most the step time. -/
theorem scanStep_inv {sat : StarlinkSat} {launch : LaunchLite}
    {boosterInfo : Option BoosterInfo} {rand : ℤ → ℚ} {st : ScanState} {t : ℤ}
    {o : Option StepData}
    (hinv : ScanInv sat launch boosterInfo rand st)
    (hbound : ∀ q ∈ st.passPoints, q.time < t) :
    ScanInv sat launch boosterInfo rand
        (scanStep sat launch boosterInfo rand st t o) ∧
    ∀ q ∈ (scanStep sat launch boosterInfo rand st t o).passPoints, q.time ≤ t := by
  unfold scanStep
  rcases o with _ | d
  · exact ⟨hinv, fun q hq => le_of_lt (hbound q hq)⟩
  · dsimp only
    by_cases hv : d.visible = true ∧ ((MIN_ELEVATION_DEG : ℤ) : ℚ) < d.elevation
    · rw [if_pos hv]
      by_cases hip : st.inPass = true
      · rw [if_pos hip]
        obtain ⟨hne, hstart⟩ := hinv.2.2.2 hip
        constructor
        · refine ⟨hinv.1, ?_, ?_, ?_⟩
          · refine List.pairwise_append.mpr ⟨hinv.2.1, List.pairwise_singleton _ _, ?_⟩
            intro a ha b hb
            have hb' :
                b =
                  { time := t, elevation := d.elevation,
                    azimuth := d.azimuth, range := d.range } := by
              simpa using hb
            rw [hb']
            exact hbound a ha
          · intro hfalse
            rw [hip] at hfalse
            cases hfalse
          · intro _
            have hne2 : st.passPoints ++
                [{ time := t, elevation := d.elevation,
                   azimuth := d.azimuth, range := d.range }] ≠ [] := by
              simp
            refine ⟨hne2, ?_⟩
            rw [head_append_single st.passPoints _ hne hne2]
            exact hstart
        · intro q hq
          rcases List.mem_append.mp hq with h1 | h1
          · exact le_of_lt (hbound q h1)
          · have hq2 :
                q =
                  { time := t, elevation := d.elevation,
                    azimuth := d.azimuth, range := d.range } := by
              simpa using h1
            rw [hq2]
      · rw [if_neg hip]
        constructor
        · refine ⟨hinv.1, List.pairwise_singleton _ _, ?_, ?_⟩
          · intro hfalse
            cases hfalse
          · intro _
            exact ⟨List.cons_ne_nil _ _, rfl⟩
        · intro q hq
          have hq2 :
              q =
                { time := t, elevation := d.elevation,
                  azimuth := d.azimuth, range := d.range } := by
            simpa using hq
          rw [hq2]
    · rw [if_neg hv]
      by_cases hip : st.inPass = true
      · rw [if_pos hip]
        constructor
        · refine ⟨closePass_wellFormed hinv hip, List.Pairwise.nil, fun _ => ⟨rfl, rfl⟩, ?_⟩
          intro hfalse
          cases hfalse
        · intro q hq
          simp at hq
      · rw [if_neg hip]
        exact ⟨hinv, fun q hq => le_of_lt (hbound q hq)⟩

/-- Folding the scan step over a strictly increasing list of times
preserves the invariant, starting from any state whose buffered samples
predate all the times. -/
theorem scanFold_inv {sat : StarlinkSat} {launch : LaunchLite}
    {boosterInfo : Option BoosterInfo} {rand : ℤ → ℚ} (obs : ℤ → Option StepData) :
    ∀ (times : List ℤ) (st : ScanState),
      List.Pairwise (fun a b : ℤ => a < b) times →
      ScanInv sat launch boosterInfo rand st →
      (∀ q ∈ st.passPoints, ∀ u ∈ times, q.time < u) →
      ScanInv sat launch boosterInfo rand
        (times.foldl
          (fun s u => scanStep sat launch boosterInfo rand s u (obs u)) st) := by
  intro times
  induction times with
  | nil => intro st _ hinv _; exact hinv
  | cons t rest ih =>
    intro st hp hinv hbound
    simp only [List.foldl_cons]
    have hstep := scanStep_inv (o := obs t) hinv
      (fun q hq => hbound q hq t (List.mem_cons_self _ _))
    apply ih _ (List.pairwise_cons.mp hp).2 hstep.1
    intro q hq u hu
    exact lt_of_le_of_lt (hstep.2 q hq) ((List.pairwise_cons.mp hp).1 u hu)

/-- The initial scan state satisfies the invariant. -/
theorem startScanState_inv (sat : StarlinkSat) (launch : LaunchLite)
    (boosterInfo : Option BoosterInfo) (rand : ℤ → ℚ) :
    ScanInv sat launch boosterInfo rand startScanState := by
  refine ⟨?_, List.Pairwise.nil, fun _ => ⟨rfl, rfl⟩, ?_⟩
  · intro p hp
    simp [startScanState] at hp
  · intro h
    simp [startScanState] at h

/-- Every pass produced by the scan loop over strictly increasing times is
well-formed. -/
theorem scanPasses_wellFormed {sat : StarlinkSat} {launch : LaunchLite}
    {boosterInfo : Option BoosterInfo} {rand : ℤ → ℚ} {times : List ℤ}
    {obs : ℤ → Option StepData}
    (hp : List.Pairwise (fun a b : ℤ => a < b) times) :
    ∀ p ∈ scanPasses sat launch boosterInfo rand times obs,
      PassWellFormed sat launch boosterInfo rand p := by
  intro p hmem
  unfold scanPasses finishScan at hmem
  have hinv := scanFold_inv obs times startScanState hp
    (startScanState_inv sat launch boosterInfo rand) (by simp [startScanState])
  by_cases hip :
      (times.foldl
        (fun s u => scanStep sat launch boosterInfo rand s u (obs u))
        startScanState).inPass = true
  · rw [if_pos hip] at hmem
    exact closePass_wellFormed hinv hip p hmem
  · rw [if_neg hip] at hmem
    exact hinv.1 p hmem

/-- Mapping a strictly monotone function over a range yields a strictly
increasing list. -/
theorem pairwise_lt_range_map (n : ℕ) (f : ℕ → ℤ)
    (hf : ∀ a b : ℕ, a < b → f a < f b) :
    List.Pairwise (fun a b : ℤ => a < b) ((List.range n).map f) := by
  rw [List.pairwise_map]
  exact (List.pairwise_lt_range n).imp (fun hab => hf _ _ hab)

/-- The 7-day scan grid of step times is strictly increasing. -/
theorem scanTimes_pairwise (now : ℤ) :
    List.Pairwise (fun a b : ℤ => a < b) (scanTimes now) := by
  unfold scanTimes
  apply pairwise_lt_range_map
  intro a b hab
  have hcast : (a : ℤ) < (b : ℤ) := by exact_mod_cast hab
  have hpos : (0 : ℤ) < (PREDICTION_STEP_SECONDS : ℤ) * 1000 := by
    norm_num [PREDICTION_STEP_SECONDS]
  exact add_lt_add_left (mul_lt_mul_of_pos_right hcast hpos) now

/-- C2: every pass emitted by the pass finder satisfies
start ≤ peak ≤ end, records as `maxElDeg` the maximum elevation of its
sample buffer and as `azStart`/`azEnd` the first/last sample's azimuth,
and was built from at least two buffered samples; a candidate with fewer
than two samples is discarded by `createPassFromPoints` and never emitted,
including at the 7-day horizon boundary. -/
theorem passFinder_invariants :
    (∀ (sat : StarlinkSat) (launch : LaunchLite) (passStart : ℤ)
        (points : List SamplePoint) (boosterInfo : Option BoosterInfo) (rand : ℚ),
        points.length < 2 →
        createPassFromPoints sat launch passStart points boosterInfo rand = none) ∧
    (∀ (sat : StarlinkSat) (launch : LaunchLite) (boosterInfo : Option BoosterInfo)
        (rand : ℤ → ℚ) (times : List ℤ) (obs : ℤ → Option StepData),
        List.Pairwise (fun a b : ℤ => a < b) times →
        ∀ p ∈ scanPasses sat launch boosterInfo rand times obs,
          PassWellFormed sat launch boosterInfo rand p) ∧
    (∀ (sat : StarlinkSat) (launch : LaunchLite) (boosterInfo : Option BoosterInfo)
        (rand : ℤ → ℚ) (now : ℤ) (obs : ℤ → Option StepData),
        ∀ p ∈ calculateSatellitePasses sat launch boosterInfo rand now obs,
          PassWellFormed sat launch boosterInfo rand p) := by
  refine ⟨?_, ?_, ?_⟩
  · intro sat launch passStart points boosterInfo rand hlen
    unfold createPassFromPoints
    rw [if_pos hlen]
  · intro sat launch boosterInfo rand times obs hp
    exact scanPasses_wellFormed hp
  · intro sat launch boosterInfo rand now obs
    exact scanPasses_wellFormed (scanTimes_pairwise now)

/-- Witness for C2: a one-sample candidate is discarded, and a concrete
two-sample pass emitted by the scan loop is well-formed. -/
theorem passFinder_invariants_witness :
    createPassFromPoints
        { id := "s", launch := "l", tle1 := "", tle2 := "", epoch := "" }
        { id := "l", name := "n", date_utc := 0, cores := [], launchpad := "p" }
        0 [{ time := 0, elevation := 20, azimuth := 100, range := 500 }] none 0 =
      none ∧
    ({ satId := "s", launchId := "l", start := 0, peak := 30000, endTime := 30000,
       maxElDeg := 45, phaseAngleDeg := 30, score := 0, azStart := 100,
       azEnd := 200, launchName := "n", boosterInfo := none } : Pass) ∈
      scanPasses
        { id := "s", launch := "l", tle1 := "", tle2 := "", epoch := "" }
        { id := "l", name := "n", date_utc := 0, cores := [], launchpad := "p" }
        none (fun _ => 0) [0, 30000, 60000]
        (fun t =>
          if t = 60000 then
            some { elevation := 0, azimuth := 0, range := 0, visible := false }
          else if t = 0 then
            some { elevation := 20, azimuth := 100, range := 500, visible := true }
          else some { elevation := 45, azimuth := 200, range := 600, visible := true }) ∧
    PassWellFormed
      { id := "s", launch := "l", tle1 := "", tle2 := "", epoch := "" }
      { id := "l", name := "n", date_utc := 0, cores := [], launchpad := "p" }
      none (fun _ => 0)
      { satId := "s", launchId := "l", start := 0, peak := 30000, endTime := 30000,
        maxElDeg := 45, phaseAngleDeg := 30, score := 0, azStart := 100,
        azEnd := 200, launchName := "n", boosterInfo := none } := by
  have hrun :
      scanPasses
          { id := "s", launch := "l", tle1 := "", tle2 := "", epoch := "" }
          { id := "l", name := "n", date_utc := 0, cores := [], launchpad := "p" }
          none (fun _ => 0) [0, 30000, 60000]
          (fun t =>
            if t = 60000 then
              some { elevation := 0, azimuth := 0, range := 0, visible := false }
            else if t = 0 then
              some { elevation := 20, azimuth := 100, range := 500, visible := true }
            else
              some { elevation := 45, azimuth := 200, range := 600, visible := true }) =
        [{ satId := "s", launchId := "l", start := 0, peak := 30000,
           endTime := 30000, maxElDeg := 45, phaseAngleDeg := 30, score := 0,
           azStart := 100, azEnd := 200, launchName := "n", boosterInfo := none }] := by
    norm_num [scanPasses, finishScan, closePass, scanStep, startScanState,
      createPassFromPoints, MIN_ELEVATION_DEG, List.foldl_cons, List.foldl_nil]
  refine ⟨?_, ?_, ?_⟩
  · exact passFinder_invariants.1
      { id := "s", launch := "l", tle1 := "", tle2 := "", epoch := "" }
      { id := "l", name := "n", date_utc := 0, cores := [], launchpad := "p" }
      0 [{ time := 0, elevation := 20, azimuth := 100, range := 500 }] none 0
      (by norm_num)
  · rw [hrun]
    exact List.mem_singleton.mpr rfl
  · exact passFinder_invariants.2.1
      { id := "s", launch := "l", tle1 := "", tle2 := "", epoch := "" }
      { id := "l", name := "n", date_utc := 0, cores := [], launchpad := "p" }
      none (fun _ => 0) [0, 30000, 60000]
      (fun t =>
        if t = 60000 then
          some { elevation := 0, azimuth := 0, range := 0, visible := false }
        else if t = 0 then
          some { elevation := 20, azimuth := 100, range := 500, visible := true }
        else some { elevation := 45, azimuth := 200, range := 600, visible := true })
      (by decide)
      { satId := "s", launchId := "l", start := 0, peak := 30000, endTime := 30000,
        maxElDeg := 45, phaseAngleDeg := 30, score := 0, azStart := 100,
        azEnd := 200, launchName := "n", boosterInfo := none }
      (by rw [hrun]; exact List.mem_singleton.mpr rfl)

/-! Scoring and per-launch batching, from the satellite tracker
(`src/unnamed/part_004`), and the orchestration in
`src/lib/prediction-engine.ts`.  The local-time `getHours()` call is
modelled by an oracle `getHours : ℤ → ℤ` (the environment's timezone). -/

/-- `calculateTwilightBonus` from the satellite tracker: a step function
of the local hour. -/
def calculateTwilightBonus (getHours : ℤ → ℤ) (time : ℤ) : ℚ :=
  let hour := getHours time
  if (6 ≤ hour ∧ hour ≤ 7) ∨ (19 ≤ hour ∧ hour ≤ 20) then 1.0
  else if (5 ≤ hour ∧ hour ≤ 8) ∨ (18 ≤ hour ∧ hour ≤ 21) then 0.7
  else if (4 ≤ hour ∧ hour ≤ 9) ∨ (17 ≤ hour ∧ hour ≤ 22) then 0.4
  else 0.1

/-- `calculateTrainScore` from the satellite tracker.  Note that it reads
the fixed `DEFAULT_WEIGHTS` constant: no caller-supplied weights reach
it. -/
def calculateTrainScore (getHours : ℤ → ℤ) (pass : Pass) (launch : LaunchLite) : ℚ :=
  let launchDate := launch.date_utc
  let passDate := pass.peak
  let daysSinceDeploy : ℚ := ((passDate - launchDate : ℤ) : ℚ) / (1000 * 60 * 60 * 24)
  let deployScore := 1 / (1 + daysSinceDeploy)
  let phaseBrightness := 1 - pass.phaseAngleDeg / 180
  let elevationScore := pass.maxElDeg / 90
  let twilightBonus := calculateTwilightBonus getHours passDate
  DEFAULT_WEIGHTS.w1 * deployScore + DEFAULT_WEIGHTS.w2 * phaseBrightness +
    DEFAULT_WEIGHTS.w3 * elevationScore + DEFAULT_WEIGHTS.w4 * twilightBonus

/-- `calculatePasses` from the satellite tracker: filter valid fresh TLEs,
subsample every third satellite capped at 10, look up booster info for the
first core, scan each satellite (a satellite whose TLE fails to parse into
a satrec, `satrecOk = false`, is skipped by the catch), then score and
sort descending.  The oracles: `parse` models date parsing, `fetchBooster`
the booster lookup, `satrecOk` satellite.js `twoline2satrec` success,
`obs` per-satellite propagation, `rand` the phase-angle placeholder. -/
def calculatePasses (parse : String → Option ℤ) (getHours : ℤ → ℤ) (now : ℤ)
    (fetchBooster : String → Option BoosterInfo) (satrecOk : StarlinkSat → Bool)
    (obs : StarlinkSat → ℤ → Option StepData) (rand : StarlinkSat → ℤ → ℚ)
    (satellites : List StarlinkSat) (location : UserLocation)
    (launch : LaunchLite) : List Pass :=
  let validSatellites := satellites.filter
    (fun sat => isValidTle sat.tle1 sat.tle2 && isTleFresh parse now sat.epoch)
  if validSatellites = [] then []
  else
    let sampleSatellites :=
      (validSatellites.enum.filter (fun ie => ie.1 % 3 == 0)).map Prod.snd
    let boosterInfo : Option BoosterInfo :=
      match launch.cores.head? with
      | some (some coreId) => fetchBooster coreId
      | _ => none
    let passes := (sampleSatellites.take 10).flatMap (fun sat =>
      if satrecOk sat then
        calculateSatellitePasses sat launch boosterInfo (rand sat) now (obs sat)
      else [])
    let scoredPasses := passes.map
      (fun pass => { pass with score := calculateTrainScore getHours pass launch })
    scoredPasses.mergeSort (fun a b => decide (b.score ≤ a.score))

/-- `filterValidSatellites` from `src/lib/prediction-engine.ts`. -/
def filterValidSatellites (parse : String → Option ℤ) (now : ℤ)
    (satellites : List StarlinkSat) : List StarlinkSat :=
  satellites.filter
    (fun sat => isValidTle sat.tle1 sat.tle2 && isTleFresh parse now sat.epoch)

/-- The satellite map built by `getLaunchAndSatelliteData`: one entry per
launch, holding the fetched satellites (an empty list on fetch failure,
which the oracle `fetchSats` subsumes). -/
def buildSatelliteMap (launches : List LaunchLite)
    (fetchSats : String → List StarlinkSat) : List (String × List StarlinkSat) :=
  launches.map (fun launch => (launch.id, fetchSats launch.id))

/-- `calculateFreshPredictions` from `src/lib/prediction-engine.ts`: per
launch, look up its satellites, filter valid fresh TLEs, run the pass
finder, then merge all passes, sort descending by score and truncate to
the top 20.  The caller-supplied `weights` parameter is accepted but,
as in the source, never read. -/
def calculateFreshPredictions (parse : String → Option ℤ) (getHours : ℤ → ℤ)
    (now : ℤ) (fetchBooster : String → Option BoosterInfo)
    (satrecOk : StarlinkSat → Bool) (obs : StarlinkSat → ℤ → Option StepData)
    (rand : StarlinkSat → ℤ → ℚ) (location : UserLocation)
    (weights : Option PredictionWeights) (launches : List LaunchLite)
    (satelliteMap : List (String × List StarlinkSat)) : List Pass :=
  if launches = [] then []
  else
    let allPasses := launches.flatMap (fun launch =>
      let satellites := (satelliteMap.lookup launch.id).getD []
      if satellites = [] then []
      else
        let validSatellites := filterValidSatellites parse now satellites
        if validSatellites = [] then []
        else
          calculatePasses parse getHours now fetchBooster satrecOk obs rand
            validSatellites location launch)
    (allPasses.mergeSort (fun a b => decide (b.score ≤ a.score))).take 20

/-- C5: the passes produced by a fresh computation are independent of the
caller-supplied weights argument; any two weight sets, or omitting the
weights, yield identical scored passes, because `calculateTrainScore`
reads the fixed `DEFAULT_WEIGHTS` constant. -/
theorem freshPredictions_weights_independent (parse : String → Option ℤ)
    (getHours : ℤ → ℤ) (now : ℤ) (fetchBooster : String → Option BoosterInfo)
    (satrecOk : StarlinkSat → Bool) (obs : StarlinkSat → ℤ → Option StepData)
    (rand : StarlinkSat → ℤ → ℚ) (location : UserLocation)
    (launches : List LaunchLite) (satelliteMap : List (String × List StarlinkSat))
    (weights weights' : Option PredictionWeights) :
    calculateFreshPredictions parse getHours now fetchBooster satrecOk obs rand
        location weights launches satelliteMap =
      calculateFreshPredictions parse getHours now fetchBooster satrecOk obs rand
        location weights' launches satelliteMap := rfl

/-- C6: the fresh prediction list is sorted in descending order of score
and contains at most 20 passes. -/
theorem freshPredictions_sorted_top20 (parse : String → Option ℤ)
    (getHours : ℤ → ℤ) (now : ℤ) (fetchBooster : String → Option BoosterInfo)
    (satrecOk : StarlinkSat → Bool) (obs : StarlinkSat → ℤ → Option StepData)
    (rand : StarlinkSat → ℤ → ℚ) (location : UserLocation)
    (weights : Option PredictionWeights) (launches : List LaunchLite)
    (satelliteMap : List (String × List StarlinkSat)) :
    List.Pairwise (fun a b : Pass => b.score ≤ a.score)
        (calculateFreshPredictions parse getHours now fetchBooster satrecOk obs
          rand location weights launches satelliteMap) ∧
    (calculateFreshPredictions parse getHours now fetchBooster satrecOk obs rand
        location weights launches satelliteMap).length ≤ 20 := by
  unfold calculateFreshPredictions
  split_ifs with h
  · exact ⟨List.Pairwise.nil, by simp⟩
  · constructor
    · refine List.Pairwise.imp (fun hab => of_decide_eq_true hab)
        (List.Pairwise.sublist (List.take_sublist 20 _)
          (@List.sorted_mergeSort Pass
            (fun a b : Pass => decide (b.score ≤ a.score))
            (fun a b c hab hbc => by
              rw [decide_eq_true_iff] at hab hbc ⊢
              exact le_trans hbc hab)
            (fun a b => by
              rcases le_total b.score a.score with hle | hle
              · simp [hle]
              · simp [hle])
            _))
    · exact List.length_take_le 20 _

/-! The prediction cache, from `src/lib/prediction-engine.ts`.  The
engine's two mutable cache fields become an explicit `EngineState` value
threaded through `getPredictions`; the outcome of the fresh computation
(which performs upstream I/O) is passed in as an `Except` value. -/

/-- One prediction-cache entry (`PredictionCache` in the source). -/
structure PredictionCacheEntry where
  location : UserLocation
  passes : List Pass
  timestamp : ℤ
  expiresAt : ℤ
deriving DecidableEq

/-- The launch/satellite snapshot cache entry (`LaunchCache` in the
source). -/
structure LaunchCacheEntry where
  launches : List LaunchLite
  satellites : List (String × List StarlinkSat)
  timestamp : ℤ
  expiresAt : ℤ
deriving DecidableEq

/-- The engine's mutable state: the per-location prediction cache map and
the global launch cache. -/
structure EngineState where
  predictionCache : List ((ℚ × ℚ) × PredictionCacheEntry)
  launchCache : Option LaunchCacheEntry
deriving DecidableEq

/-- `CACHE_DURATION_MS`: 15 minutes. -/
def CACHE_DURATION_MS : ℤ := 15 * 60 * 1000

/-- `LAUNCH_CACHE_DURATION_MS`: 1 hour. -/
def LAUNCH_CACHE_DURATION_MS : ℤ := 60 * 60 * 1000

/-- JavaScript `Math.round`: round half toward positive infinity. -/
def jsRound (x : ℚ) : ℤ := ⌊x + 1 / 2⌋

/-- `generateLocationCacheKey` from `src/lib/prediction-engine.ts`:
latitude and longitude rounded to two decimals.  The source renders the
pair as a string key; since JS number printing is injective, the rounded
pair itself serves as the key. -/
def generateLocationCacheKey (location : UserLocation) : ℚ × ℚ :=
  ((jsRound (location.lat * 100) : ℚ) / 100, (jsRound (location.lon * 100) : ℚ) / 100)

/-- `Map.get` on the prediction cache. -/
def cacheLookup (cache : List ((ℚ × ℚ) × PredictionCacheEntry)) (key : ℚ × ℚ) :
    Option PredictionCacheEntry :=
  match cache with
  | [] => none
  | entry :: rest => if entry.1 = key then some entry.2 else cacheLookup rest key

/-- `Map.set` on the prediction cache: replace any entry under the same
key. -/
def cacheSet (cache : List ((ℚ × ℚ) × PredictionCacheEntry)) (key : ℚ × ℚ)
    (entry : PredictionCacheEntry) : List ((ℚ × ℚ) × PredictionCacheEntry) :=
  (key, entry) :: cache.filter (fun e => e.1 ≠ key)

/-- `cleanupCache` from `src/lib/prediction-engine.ts`: drop expired
prediction-cache entries (`expiresAt <= now`) and an expired launch
cache. -/
def cleanupCache (st : EngineState) (now : ℤ) : EngineState :=
  { predictionCache := st.predictionCache.filter (fun e => now < e.2.expiresAt)
    launchCache :=
      match st.launchCache with
      | some lc => if lc.expiresAt ≤ now then none else some lc
      | none => none }

/-- `getPredictions` from `src/lib/prediction-engine.ts`: serve a live
cache entry if present; otherwise attempt the fresh computation, caching
and returning it on success (after pruning expired entries), and on
failure falling back to the cached entry of any age, propagating the
failure only when none exists.  `fresh` is the outcome that
`calculateFreshPredictions` (with its upstream fetches) would produce at
this instant. -/
def getPredictions (st : EngineState) (now : ℤ) (location : UserLocation)
    (fresh : Except Unit (List Pass)) : Except Unit (List Pass × EngineState) :=
  let cacheKey := generateLocationCacheKey location
  let cached := cacheLookup st.predictionCache cacheKey
  match cached with
  | some c =>
    if now < c.expiresAt then .ok (c.passes, st)
    else
      match fresh with
      | .ok passes =>
        let newEntry : PredictionCacheEntry :=
          { location := location, passes := passes, timestamp := now,
            expiresAt := now + CACHE_DURATION_MS }
        let st' : EngineState :=
          { st with predictionCache :=
              cacheSet st.predictionCache cacheKey newEntry }
        .ok (passes, cleanupCache st' now)
      | .error _ => .ok (c.passes, st)
  | none =>
    match fresh with
    | .ok passes =>
      let newEntry : PredictionCacheEntry :=
        { location := location, passes := passes, timestamp := now,
          expiresAt := now + CACHE_DURATION_MS }
      let st' : EngineState :=
        { st with predictionCache :=
            cacheSet st.predictionCache cacheKey newEntry }
      .ok (passes, cleanupCache st' now)
    | .error e => .error e

/-- C3: when the fresh computation fails and a cache entry (here an
expired one) exists for the observer's quantized location key,
`getPredictions` returns that stale entry's pass list; the failure is
propagated only when no entry of any age exists for the key. -/
theorem getPredictions_degrades_to_stale :
    (∀ (st : EngineState) (now : ℤ) (location : UserLocation)
        (entry : PredictionCacheEntry),
        cacheLookup st.predictionCache (generateLocationCacheKey location) =
          some entry →
        entry.expiresAt ≤ now →
        getPredictions st now location (.error ()) = .ok (entry.passes, st)) ∧
    (∀ (st : EngineState) (now : ℤ) (location : UserLocation),
        cacheLookup st.predictionCache (generateLocationCacheKey location) = none →
        getPredictions st now location (.error ()) = .error ()) := by
  constructor
  · intro st now location entry hlook hexp
    unfold getPredictions
    dsimp only
    rw [hlook]
    dsimp only
    rw [if_neg (not_lt.mpr hexp)]
  · intro st now location hlook
    unfold getPredictions
    dsimp only
    rw [hlook]

/-- Witness for C3: a concrete expired entry is served on failure, and
with an empty cache the failure propagates. -/
theorem getPredictions_degrades_to_stale_witness :
    getPredictions
        { predictionCache :=
            [((0, 0),
              { location := { lat := 0, lon := 0, name := none, timezone := none },
                passes := [], timestamp := 0, expiresAt := 10 })],
          launchCache := none }
        10 { lat := 0, lon := 0, name := none, timezone := none } (.error ()) =
      .ok ([],
        { predictionCache :=
            [((0, 0),
              { location := { lat := 0, lon := 0, name := none, timezone := none },
                passes := [], timestamp := 0, expiresAt := 10 })],
          launchCache := none }) ∧
    getPredictions { predictionCache := [], launchCache := none } 10
        { lat := 0, lon := 0, name := none, timezone := none } (.error ()) =
      .error () := by
  constructor
  · exact getPredictions_degrades_to_stale.1
      { predictionCache :=
          [((0, 0),
            { location := { lat := 0, lon := 0, name := none, timezone := none },
              passes := [], timestamp := 0, expiresAt := 10 })],
        launchCache := none }
      10 { lat := 0, lon := 0, name := none, timezone := none }
      { location := { lat := 0, lon := 0, name := none, timezone := none },
        passes := [], timestamp := 0, expiresAt := 10 }
      (by norm_num [cacheLookup, generateLocationCacheKey, jsRound])
      (by norm_num)
  · exact getPredictions_degrades_to_stale.2
      { predictionCache := [], launchCache := none } 10
      { lat := 0, lon := 0, name := none, timezone := none }
      (by norm_num [cacheLookup])

/-- Looking up the key just written by `cacheSet` yields the new entry. -/
theorem cacheLookup_cons_self (k : ℚ × ℚ) (v : PredictionCacheEntry)
    (l : List ((ℚ × ℚ) × PredictionCacheEntry)) :
    cacheLookup ((k, v) :: l) k = some v := by
  unfold cacheLookup
  dsimp only
  rw [if_pos rfl]

/-- Whatever entry a successful `getPredictions` call leaves under the
observer's key holds exactly the pass list that call returned. -/
theorem getPredictions_ok_lookup {st : EngineState} {now : ℤ}
    {location : UserLocation} {fresh : Except Unit (List Pass)}
    {ps : List Pass} {st' : EngineState}
    (h : getPredictions st now location fresh = .ok (ps, st')) :
    ∀ entry : PredictionCacheEntry,
      cacheLookup st'.predictionCache (generateLocationCacheKey location) =
        some entry →
      entry.passes = ps := by
  unfold getPredictions at h
  dsimp only at h
  rcases hc : cacheLookup st.predictionCache (generateLocationCacheKey location)
    with _ | c
  all_goals rw [hc] at h; dsimp only at h
  · rcases fresh with _ | passes
    · cases h
    · simp only [Except.ok.injEq, Prod.mk.injEq] at h
      obtain ⟨hps, hst⟩ := h
      subst hps
      subst hst
      intro entry hlook
      dsimp only [cleanupCache, cacheSet] at hlook
      rw [List.filter_cons_of_pos (by
        norm_num [CACHE_DURATION_MS])] at hlook
      rw [cacheLookup_cons_self] at hlook
      simp only [Option.some.injEq] at hlook
      rw [← hlook]
  · by_cases hlive : now < c.expiresAt
    · rw [if_pos hlive] at h
      simp only [Except.ok.injEq, Prod.mk.injEq] at h
      obtain ⟨hps, hst⟩ := h
      subst hps
      subst hst
      intro entry hlook
      rw [hc] at hlook
      simp only [Option.some.injEq] at hlook
      rw [hlook]
    · rw [if_neg hlive] at h
      rcases fresh with _ | passes
      · simp only [Except.ok.injEq, Prod.mk.injEq] at h
        obtain ⟨hps, hst⟩ := h
        subst hps
        subst hst
        intro entry hlook
        rw [hc] at hlook
        simp only [Option.some.injEq] at hlook
        rw [hlook]
      · simp only [Except.ok.injEq, Prod.mk.injEq] at h
        obtain ⟨hps, hst⟩ := h
        subst hps
        subst hst
        intro entry hlook
        dsimp only [cleanupCache, cacheSet] at hlook
        rw [List.filter_cons_of_pos (by
          norm_num [CACHE_DURATION_MS])] at hlook
        rw [cacheLookup_cons_self] at hlook
        simp only [Option.some.injEq] at hlook
        rw [← hlook]

/-- C7: if a first `getPredictions` call returns a pass list and leaves a
cache entry under the observer's quantized key, then any second call for a
location with the same key, made before that entry expires, returns
exactly the same pass list with the state unchanged, whatever fresh
outcome (changed upstream data) the second call would compute. -/
theorem getPredictions_cache_idempotent (st : EngineState) (t1 t2 : ℤ)
    (loc loc' : UserLocation) (f1 f2 : Except Unit (List Pass))
    (ps : List Pass) (st' : EngineState) (entry : PredictionCacheEntry) :
    generateLocationCacheKey loc' = generateLocationCacheKey loc →
    getPredictions st t1 loc f1 = .ok (ps, st') →
    cacheLookup st'.predictionCache (generateLocationCacheKey loc) = some entry →
    t2 < entry.expiresAt →
    getPredictions st' t2 loc' f2 = .ok (ps, st') := by
  intro hkey h1 hlook ht2
  have hps : entry.passes = ps := getPredictions_ok_lookup h1 entry hlook
  unfold getPredictions
  dsimp only
  rw [hkey, hlook]
  dsimp only
  rw [if_pos ht2, hps]

/-- Witness for C7: a concrete first call fills the cache; a second call
60 seconds later with a failing fresh computation still returns the
cached list unchanged. -/
theorem getPredictions_cache_idempotent_witness :
    getPredictions
        { predictionCache :=
            [((0, 0),
              { location := { lat := 0, lon := 0, name := none, timezone := none },
                passes :=
                  [{ satId := "s", launchId := "l", start := 0, peak := 0,
                     endTime := 0, maxElDeg := 0, phaseAngleDeg := 0, score := 0,
                     azStart := 0, azEnd := 0, launchName := "n",
                     boosterInfo := none }],
                timestamp := 0, expiresAt := 900000 })],
          launchCache := none }
        60000 { lat := 0, lon := 0, name := none, timezone := none } (.error ()) =
      .ok
        ([{ satId := "s", launchId := "l", start := 0, peak := 0,
            endTime := 0, maxElDeg := 0, phaseAngleDeg := 0, score := 0,
            azStart := 0, azEnd := 0, launchName := "n", boosterInfo := none }],
          { predictionCache :=
              [((0, 0),
                { location := { lat := 0, lon := 0, name := none, timezone := none },
                  passes :=
                    [{ satId := "s", launchId := "l", start := 0, peak := 0,
                       endTime := 0, maxElDeg := 0, phaseAngleDeg := 0, score := 0,
                       azStart := 0, azEnd := 0, launchName := "n",
                       boosterInfo := none }],
                  timestamp := 0, expiresAt := 900000 })],
            launchCache := none }) := by
  refine getPredictions_cache_idempotent
    { predictionCache := [], launchCache := none } 0 60000
    { lat := 0, lon := 0, name := none, timezone := none }
    { lat := 0, lon := 0, name := none, timezone := none }
    (.ok
      [{ satId := "s", launchId := "l", start := 0, peak := 0,
         endTime := 0, maxElDeg := 0, phaseAngleDeg := 0, score := 0,
         azStart := 0, azEnd := 0, launchName := "n", boosterInfo := none }])
    (.error ())
    [{ satId := "s", launchId := "l", start := 0, peak := 0,
       endTime := 0, maxElDeg := 0, phaseAngleDeg := 0, score := 0,
       azStart := 0, azEnd := 0, launchName := "n", boosterInfo := none }]
    { predictionCache :=
        [((0, 0),
          { location := { lat := 0, lon := 0, name := none, timezone := none },
            passes :=
              [{ satId := "s", launchId := "l", start := 0, peak := 0,
                 endTime := 0, maxElDeg := 0, phaseAngleDeg := 0, score := 0,
                 azStart := 0, azEnd := 0, launchName := "n",
                 boosterInfo := none }],
            timestamp := 0, expiresAt := 900000 })],
      launchCache := none }
    { location := { lat := 0, lon := 0, name := none, timezone := none },
      passes :=
        [{ satId := "s", launchId := "l", start := 0, peak := 0,
           endTime := 0, maxElDeg := 0, phaseAngleDeg := 0, score := 0,
           azStart := 0, azEnd := 0, launchName := "n", boosterInfo := none }],
      timestamp := 0, expiresAt := 900000 }
    rfl ?_ ?_ ?_
  · norm_num [getPredictions, cacheLookup, cacheSet, cleanupCache,
      generateLocationCacheKey, jsRound, CACHE_DURATION_MS]
  · norm_num [cacheLookup, generateLocationCacheKey, jsRound]
  · norm_num

/-! Quality assessment, from `getPredictionQuality` in
`src/lib/prediction-engine.ts`.  The source's imperative factor pushes and
score adjustments become adjustment triples (score delta, factors pushed,
recommendations pushed) combined in the source's push order; the
`try/catch` around the snapshot fetch becomes a match on the fetch
outcome. -/

/-- The quality bucket of the report. -/
inductive Quality where
  | excellent
  | good
  | fair
  | poor
deriving DecidableEq

/-- The report returned by `getPredictionQuality`. -/
structure QualityReport where
  quality : Quality
  factors : List String
  recommendations : List String
deriving DecidableEq

/-- `getPredictionQuality` from `src/lib/prediction-engine.ts`: the score
starts at 100, is adjusted by fixed penalties and bonuses for launch
recency, TLE validity and staleness ratios, and the observer's latitude
band, then bucketed; a failed snapshot fetch yields the fixed poor
report. -/
def getPredictionQuality (parse : String → Option ℤ) (now : ℤ)
    (location : UserLocation)
    (fetched : Except Unit (List LaunchLite × List (String × List StarlinkSat))) :
    QualityReport :=
  match fetched with
  | .error _ =>
    { quality := Quality.poor
      factors := ["Unable to assess prediction quality"]
      recommendations := ["Check your internet connection and try again"] }
  | .ok (launches, satelliteMap) =>
    let launchAdj : ℤ × List String × List String :=
      match launches with
      | [] =>
        (-50, ["No recent Starlink launches found"],
          ["Check back after the next Starlink launch"])
      | newest :: _ =>
        let daysSinceNewest : ℚ :=
          ((now - newest.date_utc : ℤ) : ℚ) / (1000 * 60 * 60 * 24)
        if daysSinceNewest > 7 then
          (-20, ["Most recent launch is over a week old"], [])
        else if daysSinceNewest < 2 then
          (10, ["Very recent launch available"], [])
        else (0, [], [])
    let totalSatellites := (satelliteMap.map (fun e => e.2.length)).sum
    let validSatellites := (satelliteMap.map
      (fun e => (e.2.filter (fun sat => isValidTle sat.tle1 sat.tle2)).length)).sum
    let staleTles := (satelliteMap.map
      (fun e => (e.2.filter (fun sat =>
        isValidTle sat.tle1 sat.tle2 && !(isTleFresh parse now sat.epoch))).length)).sum
    let validAdj : ℤ × List String × List String :=
      if 0 < totalSatellites ∧
          ((validSatellites : ℚ) / (totalSatellites : ℚ)) < 0.5 then
        (-30, ["Many satellites have invalid orbital data"],
          ["Predictions may be less accurate due to data quality issues"])
      else (0, [], [])
    let staleAdj : ℤ × List String × List String :=
      if 0 < totalSatellites ∧
          ((staleTles : ℚ) / (validSatellites : ℚ)) > 0.3 then
        (-15, ["Some orbital data is outdated"],
          ["Predictions accuracy may decrease over time"])
      else (0, [], [])
    let absLat := |location.lat|
    let locAdj : ℤ × List String × List String :=
      if absLat > 60 then
        (5, ["High latitude location"], ["Excellent visibility at high latitudes"])
      else if absLat < 30 then
        (-5, ["Low latitude location"], ["Fewer passes visible at low latitudes"])
      else (0, [], [])
    let qualityScore : ℤ := 100 + launchAdj.1 + validAdj.1 + staleAdj.1 + locAdj.1
    let factors := launchAdj.2.1 ++ validAdj.2.1 ++ staleAdj.2.1 ++ locAdj.2.1
    let recommendations :=
      launchAdj.2.2 ++ validAdj.2.2 ++ staleAdj.2.2 ++ locAdj.2.2
    let quality : Quality :=
      if qualityScore ≥ 90 then Quality.excellent
      else if qualityScore ≥ 70 then Quality.good
      else if qualityScore ≥ 50 then Quality.fair
      else Quality.poor
    { quality := quality, factors := factors, recommendations := recommendations }

/-- C4 counterexample: with zero launches in the snapshot, an observer at
latitude 45 gets quality "fair", not "poor" — the claim that every
observer location is bucketed "poor" is false. -/
theorem quality_zero_launches_not_poor :
    (getPredictionQuality (fun _ => none) 0
        { lat := 45, lon := 0, name := none, timezone := none }
        (.ok ([], buildSatelliteMap [] (fun _ => [])))).quality = Quality.fair ∧
    Quality.fair ≠ Quality.poor := by
  constructor
  · norm_num [getPredictionQuality, buildSatelliteMap]
  · decide

/-- C4 (amended): with zero launches in the snapshot the report always
carries the no-recent-launches factor, and the quality is "poor" exactly
for observers with |latitude| < 30 (score 45); all other latitudes score
50 or 55 and are bucketed "fair". -/
theorem quality_zero_launches (parse : String → Option ℤ) (now : ℤ)
    (lat lon : ℚ) (nm tz : Option String)
    (fetchSats : String → List StarlinkSat) :
    "No recent Starlink launches found" ∈
      (getPredictionQuality parse now
        { lat := lat, lon := lon, name := nm, timezone := tz }
        (.ok ([], buildSatelliteMap [] fetchSats))).factors ∧
    (getPredictionQuality parse now
        { lat := lat, lon := lon, name := nm, timezone := tz }
        (.ok ([], buildSatelliteMap [] fetchSats))).quality =
      (if |lat| < 30 then Quality.poor else Quality.fair) := by
  have hmap : buildSatelliteMap [] fetchSats = [] := rfl
  rw [hmap]
  unfold getPredictionQuality
  dsimp only
  simp only [List.map_nil, List.sum_nil, List.filter_nil, lt_irrefl, false_and,
    if_false]
  norm_num
  by_cases h1 : 60 < |lat|
  · have h2 : ¬ |lat| < 30 := by
      intro h
      linarith
    rw [if_pos h1, if_neg h2]
    norm_num
  · rw [if_neg h1]
    by_cases h2 : |lat| < 30
    · rw [if_pos h2, if_pos h2]
      norm_num
    · rw [if_neg h2, if_neg h2]
      norm_num

/-- C10: `getPredictionQuality` is total: when the snapshot fetch fails it
returns the fixed poor report with the unable-to-assess factor and the
retry recommendation, rather than propagating the failure. -/
theorem getPredictionQuality_total_on_error (parse : String → Option ℤ)
    (now : ℤ) (location : UserLocation) :
    getPredictionQuality parse now location (.error ()) =
      { quality := Quality.poor
        factors := ["Unable to assess prediction quality"]
        recommendations := ["Check your internet connection and try again"] } := rfl
